import Mathlib

/-!
Verification of the pagination/continuation iteration engine and the
redirect-following query resolution of the wikipedia-rs client.

The development shallowly embeds the relevant code:
- JSON trees follow serde_json::Value; numbers are modelled as integers
  (float formatting is out of scope for the properties below) and JSON
  objects as ordered association lists.
- The blocking HTTP client is modelled as a pure executor function.  For
  the non-paginated page operations it maps a parameter list to a result;
  for the iterator it additionally takes the index of the fetch, which
  models the stateful test client whose scripted responses are consumed
  one per request.
- Fallible Rust code returning Result is embedded as Except, and the
  unbounded redirect recursion of the page operations is embedded with
  explicit fuel, with the exhausted-fuel result Option.none standing for
  nontermination.
-/

/-- JSON values, following serde_json::Value.  Numbers are modelled as
integers; objects as ordered association lists. -/
inductive Json where
  | null
  | bool (b : Bool)
  | num (n : Int)
  | str (s : String)
  | arr (elems : List Json)
  | obj (fields : List (String × Json))

/-- Field lookup in a JSON object's field list (serde_json Map::get). -/
def objGet (fields : List (String × Json)) (key : String) : Option Json :=
  (fields.find? (fun kv => kv.1 == key)).map (fun kv => kv.2)

/-- Value::as_object. -/
def Json.asObject : Json → Option (List (String × Json))
  | .obj fields => some fields
  | _ => none

/-- Value::as_str. -/
def Json.asStr : Json → Option String
  | .str s => some s
  | _ => none

/-- Value::as_array. -/
def Json.asArr : Json → Option (List Json)
  | .arr elems => some elems
  | _ => none

/-- Value::as_f64, on integer-modelled numbers. -/
def Json.asNum : Json → Option Int
  | .num n => some n
  | _ => none

/-- v.as_object().and_then(|o| o.get(key)), the pervasive access pattern. -/
def Json.getField (j : Json) (key : String) : Option Json :=
  j.asObject.bind (fun o => objGet o key)

/-- The Error enum of lib.rs.  The payloads of IOError and JSONError are
dropped: both wrap external library types that the core never inspects. -/
inductive Error where
  | httpError
  | badStatus
  | ioError
  | jsonError
  | jsonPathError
  | invalidParameter (which : String)

/-- The TitlePageId identifier enum of lib.rs. -/
inductive TitlePageId where
  | title (s : String)
  | pageId (s : String)

/-- TitlePageId::query_param. -/
def TitlePageId.queryParam : TitlePageId → String × String
  | .title s => ("titles", s)
  | .pageId s => ("pageids", s)

/-- Argument lists sent to the executor. -/
abbrev Params := List (String × String)

/-- A parsed continuation token: the key/value pairs of a continue object. -/
abbrev ContToken := List (String × String)

/-- Executor for the non-paginated page operations: one HTTP round trip,
parameters in, parsed JSON out. -/
abbrev Exec := Params → Except Error Json

/-- Executor for the iterator: as Exec, but also indexed by how many
fetches were already issued, modelling a stateful scripted client. -/
abbrev IterExec := Nat → Params → Except Error Json

/-- The per-value conversion inside Page::parse_cont. -/
def parseContValue : Json → Except Error String
  | .null => .ok ""
  | .bool b => .ok (if b then "1" else "0")
  | .num n => .ok (toString n)
  | .str s => .ok s
  | .arr _ => .error .jsonPathError
  | .obj _ => .error .jsonPathError

/-- The loop of Page::parse_cont over the continue object's entries,
stopping at the first non-stringifiable value. -/
def parseContFields : List (String × Json) → Except Error (List (String × String))
  | [] => .ok []
  | (k, v) :: rest =>
    match parseContValue v with
    | .error e => .error e
    | .ok value =>
      match parseContFields rest with
      | .error e => .error e
      | .ok tail => .ok ((k, value) :: tail)

/-- Page::parse_cont: extract the continue object of a response, if any,
and stringify its values. -/
def parseCont (q : Json) : Except Error (Option ContToken) :=
  match (q.getField "continue").bind Json.asObject with
  | none => .ok none
  | some cont =>
    match parseContFields cont with
    | .error e => .error e
    | .ok contV => .ok (some contV)

/-- Page::redirect: the to field of the first element of query.redirects. -/
def redirect (q : Json) : Option String :=
  (q.getField "query").bind fun query =>
  (query.getField "redirects").bind fun rs =>
  rs.asArr.bind fun elems =>
  elems.head?.bind fun fst =>
  (fst.getField "to").bind fun t =>
  t.asStr

/-- Page::get_first_page: first key of query.pages, then its value. -/
def getFirstPage (data : Json) : Option Json :=
  (((data.getField "query").bind (fun x => Json.getField x "pages")).bind
    Json.asObject).bind fun pages =>
  pages.head?.bind fun kv => objGet pages kv.1

/-- The query.pages extraction of the cont helper in macros.rs: a missing
pages object is a JSON-path error on every paginated fetch. -/
def queryPages (q : Json) : Except Error (List (String × Json)) :=
  match ((q.getField "query").bind (fun x => Json.getField x "pages")).bind
      Json.asObject with
  | none => .error .jsonPathError
  | some pages => .ok pages

/-- Parameter assembly of the cont helper in macros.rs: the resource's
fixed parameters, then format/action and the identifier parameter, then
either the continuation pairs verbatim or the empty continue marker. -/
def contParams (fixed : Params) (ident : TitlePageId) (cont : Option ContToken) :
    Params :=
  let base := fixed ++ [("format", "json"), ("action", "query"), ident.queryParam]
  match cont with
  | some v => base ++ v
  | none => base ++ [("continue", "")]

/-- The configuration of the Wikipedia struct consumed by the paginated
requests (the per-resource result-limit strings). -/
structure Wikipedia where
  imagesResults : String
  linksResults : String
  categoriesResults : String

/-- The five paginated resource kinds. -/
inductive Resource where
  | images
  | extlinks
  | links
  | categories
  | langlinks

/-- The fixed parameter set of each request_* function in lib.rs. -/
def Resource.fixedParams : Resource → Wikipedia → Params
  | .images, w => [("generator", "images"), ("gimlimit", w.imagesResults),
      ("prop", "imageinfo"), ("iiprop", "url")]
  | .extlinks, w => [("prop", "extlinks"), ("ellimit", w.linksResults)]
  | .links, w => [("prop", "links"), ("plnamespace", "0"),
      ("ellimit", w.linksResults)]
  | .categories, w => [("prop", "categories"), ("cllimit", w.categoriesResults)]
  | .langlinks, w => [("prop", "langlinks"), ("lllimit", w.linksResults)]

/-- The nested array field each non-generator resource extracts from the
first page; the images request iterates the page values themselves. -/
def Resource.pageField : Resource → Option String
  | .images => none
  | .extlinks => some "extlinks"
  | .links => some "links"
  | .categories => some "categories"
  | .langlinks => some "langlinks"

/-- The response processing of the cont helper in macros.rs: propagate the
executor error, require query.pages, collect the page values, and parse
the continuation object. -/
def contProcess (resp : Except Error Json) :
    Except Error (List Json × Option ContToken) :=
  match resp with
  | .error e => .error e
  | .ok q =>
    match queryPages q with
    | .error e => .error e
    | .ok pages =>
      match parseCont q with
      | .error e => .error e
      | .ok cont => .ok (pages.map Prod.snd, cont)

/-- The post-processing closure of request_extlinks and friends: take the
first page, extract its nested array field (missing fields give an empty
page), and keep the continuation; no page at all drops the continuation. -/
def firstPageField (field : String) (resp : List Json × Option ContToken) :
    List Json × Option ContToken :=
  match resp.1.head? with
  | none => ([], none)
  | some p => (((p.getField field).bind Json.asArr).getD [], resp.2)

/-- Dispatch of the per-resource response post-processing. -/
def postProcess (r : Resource) (resp : List Json × Option ContToken) :
    List Json × Option ContToken :=
  match r.pageField with
  | none => resp
  | some f => firstPageField f resp

/-- IterItem::request_next as invoked by the iterator: build the
parameters from the optional continuation, run the executor at the given
fetch index, and process the response for the resource. -/
def requestNext (r : Resource) (w : Wikipedia) (ident : TitlePageId)
    (env : IterExec) (cont : Option ContToken) (n : Nat) :
    Except Error (List Json × Option ContToken) :=
  match contProcess (env n (contParams (r.fixedParams w) ident cont)) with
  | .error e => .error e
  | .ok resp => .ok (postProcess r resp)

/-- The mutable state of Iter: the buffer of unconsumed raw elements, the
continuation token of the next page, and the number of fetches issued so
far (the observable trace of the stateful HTTP client). -/
structure IterState where
  inner : List Json
  cont : Option ContToken
  fetches : Nat

/-- Iter::new: issue the first fetch eagerly with no continuation,
propagating its failure. -/
def Iter.new (r : Resource) (w : Wikipedia) (ident : TitlePageId)
    (env : IterExec) : Except Error IterState :=
  match requestNext r w ident env none 0 with
  | .error e => .error e
  | .ok (array, cont) => .ok { inner := array, cont := cont, fetches := 1 }

/-- Iter::fetch_next: refill only when a continuation token is held; on a
failed fetch the buffer and token are left untouched (the request was
still issued, so the fetch count advances); the Bool records success. -/
def Iter.fetchNext (r : Resource) (w : Wikipedia) (ident : TitlePageId)
    (env : IterExec) (s : IterState) : IterState × Bool :=
  match s.cont with
  | none => (s, true)
  | some _ =>
    match requestNext r w ident env s.cont s.fetches with
    | .error _ => ({ s with fetches := s.fetches + 1 }, false)
    | .ok (array, cont) =>
      ({ inner := array, cont := cont, fetches := s.fetches + 1 }, true)

/-- Iterator::next for Iter: pop the front buffered element through the
resource's extraction function, or, when the buffer is exhausted and a
continuation is held, refill once and pop, turning a refill failure into
end of sequence. -/
def Iter.next {B : Type} (r : Resource) (w : Wikipedia) (ident : TitlePageId)
    (env : IterExec) (fromValue : Json → Option B) (s : IterState) :
    Option B × IterState :=
  match s.inner with
  | v :: rest => (fromValue v, { s with inner := rest })
  | [] =>
    match s.cont with
    | some _ =>
      match Iter.fetchNext r w ident env s with
      | (s2, true) =>
        match s2.inner with
        | v :: rest => (fromValue v, { s2 with inner := rest })
        | [] => (none, s2)
      | (s2, false) => (none, s2)
    | none => (none, s)

/-- Repeated Iterator::next: the list of the first n results together
with the final state. -/
def Iter.drain {B : Type} (r : Resource) (w : Wikipedia) (ident : TitlePageId)
    (env : IterExec) (fromValue : Json → Option B) :
    Nat → IterState → List (Option B) × IterState
  | 0, s => ([], s)
  | n + 1, s =>
    let step := Iter.next r w ident env fromValue s
    let tail := Iter.drain r w ident env fromValue n step.2
    (step.1 :: tail.1, tail.2)

/-- str::starts_with, on the character-list model of strings. -/
def strStartsWith (s pre : String) : Bool :=
  pre.data.isPrefixOf s.data

/-- The Image item of iter.rs. -/
structure Image where
  url : String
  title : String
  description_url : String

/-- Image::from_value: every JSON object yields an image, with the empty
string substituted for missing or non-string fields. -/
def Image.from_value (value : Json) : Option Image :=
  match value.asObject with
  | none => none
  | some obj =>
    let title := ((objGet obj "title").bind Json.asStr).getD ""
    let url := (((((objGet obj "imageinfo").bind Json.asArr).bind
        List.head?).bind Json.asObject).bind
        (fun x => (objGet x "url").bind Json.asStr)).getD ""
    let description_url := (((((objGet obj "imageinfo").bind Json.asArr).bind
        List.head?).bind Json.asObject).bind
        (fun x => (objGet x "descriptionurl").bind Json.asStr)).getD ""
    some { url := url, title := title, description_url := description_url }

/-- The Reference item of iter.rs. -/
structure Reference where
  url : String

/-- Reference::from_value, with the http: prefix normalization. -/
def Reference.from_value (value : Json) : Option Reference :=
  ((value.asObject.bind (fun x => objGet x "*")).bind Json.asStr).map fun s =>
    { url := if strStartsWith s "http:" then s else "http:" ++ s }

/-- The Link item of iter.rs. -/
structure Link where
  title : String

/-- Link::from_value. -/
def Link.from_value (value : Json) : Option Link :=
  ((value.asObject.bind (fun x => objGet x "title")).bind Json.asStr).map
    fun s => { title := s }

/-- The LangLink item of iter.rs. -/
structure LangLink where
  lang : String
  title : Option String

/-- LangLink::from_value.  The Rust code unwraps the lang field of any
object element, so a missing or non-string lang crashes the process
rather than dropping the element; the .error case models that crash. -/
def LangLink.from_value (value : Json) : Except Unit (Option LangLink) :=
  match value.asObject with
  | none => .ok none
  | some l =>
    match (objGet l "lang").bind Json.asStr with
    | none => .error ()
    | some lang => .ok (some { lang := lang
                               title := (objGet l "*").bind Json.asStr })

/-- The Category item of iter.rs, with the category-prefix trimming
performed on the character-list model of strings. -/
structure Category where
  title : String

/-- Category::from_value. -/
def Category.from_value (value : Json) : Option Category :=
  ((value.asObject.bind (fun x => objGet x "title")).bind Json.asStr).map
    fun s =>
      { title := if strStartsWith s "Category: "
          then String.mk (s.data.drop 10) else s }

/-- The parameter list of the get_pageid and get_title queries. -/
def infoParams (ident : TitlePageId) : Params :=
  [("prop", "info|pageprops"), ("inprop", "url"),
   ("ppprop", "disambiguation"), ("redirects", ""), ("format", "json"),
   ("action", "query"), ident.queryParam]

/-- The parameter list of the get_content query. -/
def contentParams (ident : TitlePageId) : Params :=
  [("prop", "extracts|revisions"), ("explaintext", ""), ("rvprop", "ids"),
   ("redirects", ""), ("format", "json"), ("action", "query"),
   ident.queryParam]

/-- The parameter list of the get_html_content query. -/
def htmlContentParams (ident : TitlePageId) : Params :=
  [("prop", "revisions"), ("rvprop", "content"), ("rvlimit", "1"),
   ("rvparse", ""), ("redirects", ""), ("format", "json"),
   ("action", "query"), ident.queryParam]

/-- The parameter list of the get_summary query. -/
def summaryParams (ident : TitlePageId) : Params :=
  [("prop", "extracts"), ("explaintext", ""), ("exintro", ""),
   ("redirects", ""), ("format", "json"), ("action", "query"),
   ident.queryParam]

/-- The parameter list of the get_coordinates query. -/
def coordinatesParams (ident : TitlePageId) : Params :=
  [("prop", "coordinates"), ("colimit", "max"), ("redirects", ""),
   ("format", "json"), ("action", "query"), ident.queryParam]

/-- Page::get_pageid, with fuel bounding the redirect recursion; none is
the exhausted-fuel artifact standing for the unbounded Rust recursion. -/
def get_pageid (exec : Exec) : Nat → TitlePageId → Option (Except Error String)
  | _, .pageId s => some (.ok s)
  | 0, .title _ => none
  | fuel + 1, .title t =>
    match exec (infoParams (.title t)) with
    | .error e => some (.error e)
    | .ok q =>
      match redirect q with
      | some r => get_pageid exec fuel (.title r)
      | none =>
        match ((q.getField "query").bind (fun x => Json.getField x "pages")).bind
            Json.asObject with
        | none => some (.error .jsonPathError)
        | some pages =>
          match pages.head? with
          | none => some (.error .jsonPathError)
          | some kv => some (.ok kv.1)

/-- Page::get_title; its redirect branch returns the reported target
directly, so no recursion and no fuel is involved. -/
def get_title (exec : Exec) : TitlePageId → Except Error String
  | .title s => .ok s
  | .pageId p =>
    match exec (infoParams (.pageId p)) with
    | .error e => .error e
    | .ok q =>
      match redirect q with
      | some r => .ok r
      | none =>
        match ((q.getField "query").bind (fun x => Json.getField x "pages")).bind
            Json.asObject with
        | none => .error .jsonPathError
        | some pages =>
          match pages.head? with
          | none => .error .jsonPathError
          | some kv =>
            match (kv.2.getField "title").bind Json.asStr with
            | none => .error .jsonPathError
            | some t => .ok t

/-- Page::get_content, redirect recursion bounded by fuel. -/
def get_content (exec : Exec) : Nat → TitlePageId → Option (Except Error String)
  | 0, _ => none
  | fuel + 1, ident =>
    match exec (contentParams ident) with
    | .error e => some (.error e)
    | .ok q =>
      match redirect q with
      | some r => get_content exec fuel (.title r)
      | none =>
        match (getFirstPage q).bind
            (fun x => (x.getField "extract").bind Json.asStr) with
        | none => some (.error .jsonPathError)
        | some s => some (.ok s)

/-- Page::get_summary, redirect recursion bounded by fuel. -/
def get_summary (exec : Exec) : Nat → TitlePageId → Option (Except Error String)
  | 0, _ => none
  | fuel + 1, ident =>
    match exec (summaryParams ident) with
    | .error e => some (.error e)
    | .ok q =>
      match redirect q with
      | some r => get_summary exec fuel (.title r)
      | none =>
        match (getFirstPage q).bind
            (fun x => (x.getField "extract").bind Json.asStr) with
        | none => some (.error .jsonPathError)
        | some s => some (.ok s)

/-- Page::get_html_content, redirect recursion bounded by fuel. -/
def get_html_content (exec : Exec) :
    Nat → TitlePageId → Option (Except Error String)
  | 0, _ => none
  | fuel + 1, ident =>
    match exec (htmlContentParams ident) with
    | .error e => some (.error e)
    | .ok q =>
      match redirect q with
      | some r => get_html_content exec fuel (.title r)
      | none =>
        match (getFirstPage q).bind (fun x =>
            (((x.getField "revisions").bind Json.asArr).bind
              List.head?).bind (fun y => (y.getField "*").bind Json.asStr)) with
        | none => some (.error .jsonPathError)
        | some s => some (.ok s)

/-- Page::get_coordinates, redirect recursion bounded by fuel;
coordinates are pairs of integer-modelled numbers. -/
def get_coordinates (exec : Exec) :
    Nat → TitlePageId → Option (Except Error (Option (Int × Int)))
  | 0, _ => none
  | fuel + 1, ident =>
    match exec (coordinatesParams ident) with
    | .error e => some (.error e)
    | .ok q =>
      match redirect q with
      | some r => get_coordinates exec fuel (.title r)
      | none =>
        match ((((getFirstPage q).bind
            (fun x => Json.getField x "coordinates")).bind Json.asArr).bind
            List.head?).bind Json.asObject with
        | none => some (.ok none)
        | some coord =>
          match (objGet coord "lat").bind Json.asNum,
              (objGet coord "lon").bind Json.asNum with
          | some lat, some lon => some (.ok (some (lat, lon)))
          | _, _ => some (.error .jsonPathError)

/-- The default result-limit configuration of Wikipedia::new. -/
def wDefault : Wikipedia :=
  { imagesResults := "max", linksResults := "max", categoriesResults := "max" }

/-- An executor whose every fetch fails with an HTTP error. -/
def envFail : IterExec := fun _ _ => Except.error .httpError

/-- An executor answering every fetch with an empty JSON object. -/
def envOkEmpty : IterExec := fun _ _ => Except.ok (Json.obj [])

/-- A non-paginated executor that always fails with a bad status. -/
def execFail : Exec := fun _ => Except.error .badStatus

/-- A scripted executor: first page of links with a continuation, then a
failing fetch, then a final page of links without continuation. -/
def c5Env : IterExec := fun n _ =>
  match n with
  | 0 => .ok (Json.obj [("continue", Json.obj [("plcontinue", Json.str "x")]),
      ("query", Json.obj [("pages", Json.obj [("a", Json.obj [("links",
        Json.arr [Json.obj [("title", Json.str "A")]])])])])])
  | 1 => .error .httpError
  | _ => .ok (Json.obj [("query", Json.obj [("pages", Json.obj [("a",
      Json.obj [("links", Json.arr [Json.obj [("title",
        Json.str "B")]])])])])])

/-- A links response without a continue object whose raw element list is a
malformed element followed by a well-formed one. -/
def c7Json : Json :=
  Json.obj [("query", Json.obj [("pages", Json.obj [("a", Json.obj [("links",
    Json.arr [Json.null, Json.obj [("title", Json.str "W")]])])])])]

/-- An executor answering every fetch with c7Json. -/
def c7Env : IterExec := fun _ _ => Except.ok c7Json

/-- A response reporting a redirect to title B. -/
def qRedirectB : Json :=
  Json.obj [("query", Json.obj [("redirects",
    Json.arr [Json.obj [("to", Json.str "B")]])])]

/-- A non-paginated executor answering every query with qRedirectB. -/
def execRedirectB : Exec := fun _ => Except.ok qRedirectB

/-- A response whose query.pages object has two keys, 42 first. -/
def c8Json : Json :=
  Json.obj [("query", Json.obj [("pages",
    Json.obj [("42", Json.obj []), ("7", Json.obj [])])])]

/-- A non-paginated executor answering every query with c8Json. -/
def c8Exec : Exec := fun _ => Except.ok c8Json

/-- Draining a buffer with no continuation token returns the extraction
result of each buffered element in order, then end-of-sequence results,
without touching the fetch count. -/
theorem drain_of_no_cont {B : Type} (fromValue : Json → Option B)
    (r : Resource) (w : Wikipedia) (ident : TitlePageId) (env : IterExec) :
    ∀ (n : Nat) (l : List Json) (f : Nat),
      Iter.drain r w ident env fromValue n ⟨l, none, f⟩
        = ((l.take n).map fromValue ++ List.replicate (n - l.length) none,
           ⟨l.drop n, none, f⟩) := by
  intro n
  induction n with
  | zero => intro l f; simp [Iter.drain]
  | succ n ih =>
    intro l f
    cases l with
    | nil => simp [Iter.drain, Iter.next, ih, List.replicate_succ]
    | cons v rest => simp [Iter.drain, Iter.next, ih]

/-- A response without a continue object parses to no continuation. -/
theorem parseCont_no_continue (q : Json) (h : q.getField "continue" = none) :
    parseCont q = .ok none := by
  simp [parseCont, h]

/-- Post-processing preserves an absent continuation token. -/
theorem postProcess_cont_of_none (r : Resource) (items : List Json) :
    (postProcess r (items, none)).2 = none := by
  cases r <;> cases items <;>
    simp [postProcess, Resource.pageField, firstPageField]

/-- Claim C1, counterexample: with a links buffer holding a malformed
element followed by a well-formed one, next() returns no item instead of
skipping to the well-formed element as the claim states. -/
theorem c1_counterexample :
    (Iter.next .links wDefault (.title "World") envFail Link.from_value
        ⟨[Json.null, Json.obj [("title", Json.str "World")]], none, 1⟩).1 = none
    ∧ Link.from_value (Json.obj [("title", Json.str "World")])
        = some { title := "World" } :=
  ⟨rfl, rfl⟩

/-- Claim C1, amended: when the front buffered element fails extraction,
that call to next() returns no item while consuming only that element;
the sequence is not aborted, and the following call returns the next
extractable buffered element. -/
theorem c1_extraction_failure {B : Type} (fromValue : Json → Option B)
    (r : Resource) (w : Wikipedia) (ident : TitlePageId) (env : IterExec)
    (cont : Option ContToken) (n : Nat) (v e2 : Json) (rest : List Json)
    (b : B) (hv : fromValue v = none) (he : fromValue e2 = some b) :
    Iter.next r w ident env fromValue ⟨v :: e2 :: rest, cont, n⟩
      = (none, ⟨e2 :: rest, cont, n⟩)
    ∧ Iter.next r w ident env fromValue ⟨e2 :: rest, cont, n⟩
      = (some b, ⟨rest, cont, n⟩) := by
  constructor <;> simp [Iter.next, hv, he]

/-- Witness for c1_extraction_failure at a concrete malformed element. -/
theorem c1_witness :
    Link.from_value Json.null = none
    ∧ Link.from_value (Json.obj [("title", Json.str "B")]) = some { title := "B" }
    ∧ Iter.next .links wDefault (.title "W") envFail Link.from_value
        ⟨[Json.null, Json.obj [("title", Json.str "B")]], none, 1⟩
      = (none, ⟨[Json.obj [("title", Json.str "B")]], none, 1⟩)
    ∧ Iter.next .links wDefault (.title "W") envFail Link.from_value
        ⟨[Json.obj [("title", Json.str "B")]], none, 1⟩
      = (some { title := "B" }, ⟨[], none, 1⟩) :=
  ⟨rfl, rfl,
   (c1_extraction_failure Link.from_value .links wDefault (.title "W") envFail
     none 1 Json.null (Json.obj [("title", Json.str "B")]) [] { title := "B" }
     rfl rfl).1,
   (c1_extraction_failure Link.from_value .links wDefault (.title "W") envFail
     none 1 Json.null (Json.obj [("title", Json.str "B")]) [] { title := "B" }
     rfl rfl).2⟩

/-- Claim C2: construction propagates the executor error of the first
fetch and the JSON-shape error of a missing pages object; a non-paginated
operation propagates its executor error; a failed continuation fetch
inside next() is swallowed and surfaced as end of sequence. -/
theorem c2_error_asymmetry {B : Type} (fromValue : Json → Option B)
    (r : Resource) (w : Wikipedia) (ident ident2 : TitlePageId)
    (env env2 env3 : IterExec) (exec : Exec) (e e2 e3 : Error)
    (q : Json) (c : ContToken) (n fuel : Nat)
    (h1 : env 0 (contParams (r.fixedParams w) ident none) = .error e)
    (h2 : env2 0 (contParams (r.fixedParams w) ident none) = .ok q)
    (h2q : ((q.getField "query").bind (fun x => Json.getField x "pages")).bind
        Json.asObject = none)
    (h3 : env3 n (contParams (r.fixedParams w) ident (some c)) = .error e3)
    (h4 : exec (contentParams ident2) = .error e2) :
    Iter.new r w ident env = .error e
    ∧ Iter.new r w ident env2 = .error .jsonPathError
    ∧ Iter.next r w ident env3 fromValue ⟨[], some c, n⟩
        = (none, ⟨[], some c, n + 1⟩)
    ∧ get_content exec (fuel + 1) ident2 = some (.error e2) := by
  refine ⟨?_, ?_, ?_, ?_⟩
  · simp [Iter.new, requestNext, contProcess, h1]
  · simp [Iter.new, requestNext, contProcess, queryPages, h2, h2q]
  · simp [Iter.next, Iter.fetchNext, requestNext, contProcess, h3]
  · simp [get_content, h4]

/-- Witness for c2_error_asymmetry at concrete executors. -/
theorem c2_witness :
    Iter.new .links wDefault (.title "W") envFail = .error .httpError
    ∧ Iter.new .links wDefault (.title "W") envOkEmpty = .error .jsonPathError
    ∧ Iter.next .links wDefault (.title "W") envFail Link.from_value
        ⟨[], some [("k", "v")], 5⟩ = (none, ⟨[], some [("k", "v")], 6⟩)
    ∧ get_content execFail 1 (.title "W") = some (.error .badStatus) :=
  c2_error_asymmetry Link.from_value .links wDefault (.title "W") (.title "W")
    envFail envOkEmpty envFail execFail .httpError .badStatus .httpError
    (Json.obj []) [("k", "v")] 5 0 rfl rfl rfl rfl rfl

/-- Claim C3: when a response reports a redirect to X, every single-item
operation equals the same operation on a fresh page built from title X
(at one less unit of redirect fuel). -/
theorem c3_redirect_resolution (exec : Exec) (fuel : Nat)
    (ident : TitlePageId) (t X : String) (qc qs qh qco qp : Json)
    (h1 : exec (contentParams ident) = .ok qc) (h1r : redirect qc = some X)
    (h2 : exec (summaryParams ident) = .ok qs) (h2r : redirect qs = some X)
    (h3 : exec (htmlContentParams ident) = .ok qh) (h3r : redirect qh = some X)
    (h4 : exec (coordinatesParams ident) = .ok qco) (h4r : redirect qco = some X)
    (h5 : exec (infoParams (.title t)) = .ok qp) (h5r : redirect qp = some X) :
    get_content exec (fuel + 1) ident = get_content exec fuel (.title X)
    ∧ get_summary exec (fuel + 1) ident = get_summary exec fuel (.title X)
    ∧ get_html_content exec (fuel + 1) ident
        = get_html_content exec fuel (.title X)
    ∧ get_coordinates exec (fuel + 1) ident
        = get_coordinates exec fuel (.title X)
    ∧ get_pageid exec (fuel + 1) (.title t) = get_pageid exec fuel (.title X) := by
  refine ⟨?_, ?_, ?_, ?_, ?_⟩
  · simp [get_content, h1, h1r]
  · simp [get_summary, h2, h2r]
  · simp [get_html_content, h3, h3r]
  · simp [get_coordinates, h4, h4r]
  · simp [get_pageid, h5, h5r]

/-- Witness for c3_redirect_resolution at a concrete redirect response. -/
theorem c3_witness :
    get_content execRedirectB 1 (.title "A") = get_content execRedirectB 0 (.title "B")
    ∧ get_summary execRedirectB 1 (.title "A") = get_summary execRedirectB 0 (.title "B")
    ∧ get_html_content execRedirectB 1 (.title "A")
        = get_html_content execRedirectB 0 (.title "B")
    ∧ get_coordinates execRedirectB 1 (.title "A")
        = get_coordinates execRedirectB 0 (.title "B")
    ∧ get_pageid execRedirectB 1 (.title "A") = get_pageid execRedirectB 0 (.title "B") :=
  c3_redirect_resolution execRedirectB 0 (.title "A") "A" "B"
    qRedirectB qRedirectB qRedirectB qRedirectB qRedirectB
    rfl rfl rfl rfl rfl rfl rfl rfl rfl rfl

/-- Claim C4: the first request of an iteration carries the fixed
parameter set plus the empty continue marker and no continuation pairs;
a continuation request carries the fixed parameter set plus the server's
continuation pairs verbatim and no continue marker; the constructor fetch
and a refill fetch consult the executor exactly at those parameter lists. -/
theorem c4_continuation_params (fixed : Params) (ident : TitlePageId)
    (v : ContToken) (r : Resource) (w : Wikipedia) (env env2 : IterExec)
    (inner : List Json) (n : Nat)
    (h0 : env 0 (contParams (r.fixedParams w) ident none)
        = env2 0 (contParams (r.fixedParams w) ident none))
    (h1 : env n (contParams (r.fixedParams w) ident (some v))
        = env2 n (contParams (r.fixedParams w) ident (some v))) :
    contParams fixed ident none
      = fixed ++ [("format", "json"), ("action", "query"), ident.queryParam,
          ("continue", "")]
    ∧ contParams fixed ident (some v)
      = fixed ++ [("format", "json"), ("action", "query"), ident.queryParam] ++ v
    ∧ Iter.new r w ident env = Iter.new r w ident env2
    ∧ Iter.fetchNext r w ident env ⟨inner, some v, n⟩
        = Iter.fetchNext r w ident env2 ⟨inner, some v, n⟩ := by
  refine ⟨by simp [contParams], by simp [contParams], ?_, ?_⟩
  · simp [Iter.new, requestNext, h0]
  · simp [Iter.fetchNext, requestNext, h1]

/-- Witness for c4_continuation_params at the links resource. -/
theorem c4_witness :
    contParams [("prop", "links"), ("plnamespace", "0"), ("ellimit", "max")]
        (.title "World") none
      = [("prop", "links"), ("plnamespace", "0"), ("ellimit", "max"),
         ("format", "json"), ("action", "query"), ("titles", "World"),
         ("continue", "")]
    ∧ contParams [("prop", "links"), ("plnamespace", "0"), ("ellimit", "max")]
        (.title "World") (some [("plcontinue", "x")])
      = [("prop", "links"), ("plnamespace", "0"), ("ellimit", "max"),
         ("format", "json"), ("action", "query"), ("titles", "World"),
         ("plcontinue", "x")]
    ∧ Iter.new .links wDefault (.title "World") envFail
        = Iter.new .links wDefault (.title "World") envFail
    ∧ Iter.fetchNext .links wDefault (.title "World") envFail
        ⟨[], some [("plcontinue", "x")], 1⟩
      = Iter.fetchNext .links wDefault (.title "World") envFail
        ⟨[], some [("plcontinue", "x")], 1⟩ :=
  c4_continuation_params
    [("prop", "links"), ("plnamespace", "0"), ("ellimit", "max")]
    (.title "World") [("plcontinue", "x")] .links wDefault envFail envFail
    [] 1 rfl rfl

/-- Claim C5, counterexample: after a continuation fetch fails and next()
has returned no item, the continuation token is retained, so the very
next call issues a further fetch and even yields an item. -/
theorem c5_counterexample :
    Iter.new .links wDefault (.title "World") c5Env
      = .ok ⟨[Json.obj [("title", Json.str "A")]], some [("plcontinue", "x")], 1⟩
    ∧ Iter.next .links wDefault (.title "World") c5Env Link.from_value
        ⟨[], some [("plcontinue", "x")], 1⟩
      = (none, ⟨[], some [("plcontinue", "x")], 2⟩)
    ∧ Iter.next .links wDefault (.title "World") c5Env Link.from_value
        ⟨[], some [("plcontinue", "x")], 2⟩
      = (some { title := "B" }, ⟨[], none, 3⟩) :=
  ⟨rfl, rfl, rfl⟩

/-- Claim C5, amended: once the sequence has ended by exhaustion (empty
buffer, no continuation token) every further next() returns no item,
leaves the state untouched and issues no fetch; a failed continuation
fetch does not reach this terminal state. -/
theorem c5_terminal_idempotent {B : Type} (fromValue : Json → Option B)
    (r : Resource) (w : Wikipedia) (ident : TitlePageId) (env : IterExec)
    (f m : Nat) :
    Iter.next r w ident env fromValue ⟨[], none, f⟩ = (none, ⟨[], none, f⟩)
    ∧ Iter.drain r w ident env fromValue m ⟨[], none, f⟩
        = (List.replicate m none, ⟨[], none, f⟩) := by
  refine ⟨rfl, ?_⟩
  simpa using drain_of_no_cont fromValue r w ident env m [] f

/-- Claim C6, counterexample: a null value inside the continue object is
stringified to the empty string instead of failing the parse. -/
theorem c6_counterexample :
    parseCont (Json.obj [("continue", Json.obj [("k", Json.null)])])
      = .ok (some [("k", "")]) :=
  rfl

/-- Claim C6, amended: inside the continue object, strings pass through,
booleans become 1 or 0, numbers become their decimal string, null becomes
the empty string, and only arrays and objects fail with a JSON-shape
error. -/
theorem c6_cont_stringified (k s : String) (b : Bool) (n : Int)
    (elems : List Json) (fs : List (String × Json)) :
    parseCont (Json.obj [("continue", Json.obj [(k, Json.str s)])])
      = .ok (some [(k, s)])
    ∧ parseCont (Json.obj [("continue", Json.obj [(k, Json.bool b)])])
      = .ok (some [(k, if b then "1" else "0")])
    ∧ parseCont (Json.obj [("continue", Json.obj [(k, Json.num n)])])
      = .ok (some [(k, toString n)])
    ∧ parseCont (Json.obj [("continue", Json.obj [(k, Json.null)])])
      = .ok (some [(k, "")])
    ∧ parseCont (Json.obj [("continue", Json.obj [(k, Json.arr elems)])])
      = .error .jsonPathError
    ∧ parseCont (Json.obj [("continue", Json.obj [(k, Json.obj fs)])])
      = .error .jsonPathError := by
  refine ⟨?_, ?_, ?_, ?_, ?_, ?_⟩ <;>
    simp [parseCont, parseContFields, parseContValue, Json.getField,
      Json.asObject, objGet]

/-- Claim C7, counterexample: on a single page without continuation whose
raw elements are a malformed element followed by an extractable one, the
first next() returns no item instead of yielding the extractable item. -/
theorem c7_counterexample :
    Iter.new .links wDefault (.title "World") c7Env
      = .ok ⟨[Json.null, Json.obj [("title", Json.str "W")]], none, 1⟩
    ∧ (Iter.next .links wDefault (.title "World") c7Env Link.from_value
        ⟨[Json.null, Json.obj [("title", Json.str "W")]], none, 1⟩).1 = none
    ∧ Link.from_value (Json.obj [("title", Json.str "W")])
        = some { title := "W" } :=
  ⟨rfl, rfl, rfl⟩

/-- Claim C7, amended: when the first response has no continue object the
iterator holds no continuation token, and successive next() calls return
the extraction result of each first-page element in order (no item for a
malformed element), then no item forever; the fetch count never moves
past the constructor fetch. -/
theorem c7_first_page_only {B : Type} (fromValue : Json → Option B)
    (r : Resource) (w : Wikipedia) (ident : TitlePageId) (env : IterExec)
    (q : Json) (l : List Json) (f n : Nat)
    (hq : env 0 (contParams (r.fixedParams w) ident none) = .ok q)
    (hnc : q.getField "continue" = none) :
    (∀ s : IterState, Iter.new r w ident env = .ok s
      → s.cont = none ∧ s.fetches = 1)
    ∧ Iter.drain r w ident env fromValue n ⟨l, none, f⟩
        = ((l.take n).map fromValue ++ List.replicate (n - l.length) none,
           ⟨l.drop n, none, f⟩) := by
  refine ⟨?_, drain_of_no_cont fromValue r w ident env n l f⟩
  intro s hs
  simp only [Iter.new, requestNext, contProcess, hq,
    parseCont_no_continue q hnc] at hs
  cases hqp : queryPages q with
  | error e => rw [hqp] at hs; exact absurd hs (by simp)
  | ok pages =>
    rw [hqp] at hs
    simp only [Except.ok.injEq] at hs
    subst hs
    exact ⟨postProcess_cont_of_none r (pages.map Prod.snd), rfl⟩

/-- Witness for c7_first_page_only at the concrete links page of c7Json. -/
theorem c7_witness :
    (∀ s : IterState, Iter.new .links wDefault (.title "World") c7Env = .ok s
      → s.cont = none ∧ s.fetches = 1)
    ∧ Iter.drain .links wDefault (.title "World") c7Env Link.from_value 3
        ⟨[Json.null, Json.obj [("title", Json.str "W")]], none, 1⟩
      = (([Json.null, Json.obj [("title", Json.str "W")]].take 3).map
            Link.from_value
          ++ List.replicate
              (3 - [Json.null, Json.obj [("title", Json.str "W")]].length) none,
         ⟨[Json.null, Json.obj [("title", Json.str "W")]].drop 3, none, 1⟩) :=
  c7_first_page_only Link.from_value .links wDefault (.title "World") c7Env
    c7Json [Json.null, Json.obj [("title", Json.str "W")]] 1 3 rfl rfl

/-- Claim C8: get_pageid on a title, once no redirect is reported,
returns the first key of the query.pages object of the response, and
fails with a JSON-path error when the query or pages object is absent or
the pages object is empty. -/
theorem c8_pageid_first_key (exec : Exec) (fuel : Nat) (t : String) (q : Json)
    (hq : exec (infoParams (.title t)) = .ok q)
    (hnr : redirect q = none) :
    (((q.getField "query").bind (fun x => Json.getField x "pages")).bind
        Json.asObject = none
      → get_pageid exec (fuel + 1) (.title t) = some (.error .jsonPathError))
    ∧ (((q.getField "query").bind (fun x => Json.getField x "pages")).bind
        Json.asObject = some []
      → get_pageid exec (fuel + 1) (.title t) = some (.error .jsonPathError))
    ∧ (∀ (k : String) (vj : Json) (rest : List (String × Json)),
        ((q.getField "query").bind (fun x => Json.getField x "pages")).bind
            Json.asObject = some ((k, vj) :: rest)
        → get_pageid exec (fuel + 1) (.title t) = some (.ok k)) := by
  refine ⟨?_, ?_, ?_⟩
  · intro h; simp [get_pageid, hq, hnr, h]
  · intro h; simp [get_pageid, hq, hnr, h]
  · intro k vj rest h; simp [get_pageid, hq, hnr, h]

/-- Witness for c8_pageid_first_key: a pages object with keys 42 and 7
in that order yields 42. -/
theorem c8_witness :
    get_pageid c8Exec 1 (.title "A") = some (.ok "42") :=
  (c8_pageid_first_key c8Exec 0 "A" c8Json rfl rfl).2.2
    "42" (Json.obj []) [("7", Json.obj [])] rfl

/-- Claim C9: get_pageid on a pageid-built page returns the stored pageid
and get_title on a title-built page returns the stored title, with a
result independent of the executor and the redirect fuel, i.e. without
any query through the HTTP client. -/
theorem c9_identity_no_query (exec exec2 : Exec) (fuel fuel2 : Nat)
    (s t : String) :
    get_pageid exec fuel (.pageId s) = some (.ok s)
    ∧ get_title exec (.title t) = .ok t
    ∧ get_pageid exec fuel (.pageId s) = get_pageid exec2 fuel2 (.pageId s)
    ∧ get_title exec (.title t) = get_title exec2 (.title t) := by
  have h : ∀ (ex : Exec) (f : Nat), get_pageid ex f (.pageId s) = some (.ok s) := by
    intro ex f; cases f <;> rfl
  exact ⟨h exec fuel, rfl, by rw [h, h], rfl⟩

/-- Claim C10: image extraction never drops a JSON object element — every
object yields an image, with the empty string substituted for missing or
non-string title, url and descriptionurl fields — and returns no item
exactly when the element is not an object. -/
theorem c10_image_never_dropped :
    (∀ fields : List (String × Json),
      (Image.from_value (Json.obj fields)).isSome = true)
    ∧ (∀ v : Json, v.asObject = none → Image.from_value v = none)
    ∧ Image.from_value (Json.obj [])
        = some { url := "", title := "", description_url := "" }
    ∧ Image.from_value
        (Json.obj [("title", Json.num 7), ("imageinfo", Json.str "x")])
        = some { url := "", title := "", description_url := "" } := by
  refine ⟨fun fields => rfl, ?_, rfl, rfl⟩
  intro v hv
  unfold Image.from_value
  rw [hv]

/-- Witness for c10_image_never_dropped at a non-object element. -/
theorem c10_witness :
    Json.null.asObject = none ∧ Image.from_value Json.null = none :=
  ⟨rfl, c10_image_never_dropped.2.1 Json.null rfl⟩
